import Mathlib

/-!
Verification of the customer-churn dashboard (src/app.py).

The reproducible logic of the app is embedded shallowly:
raw-input encoding and engineered features (app.py lines 110-141),
the zero-fill / column-reorder step (lines 147-152), the risk tiering
(lines 165-176), the recommendation branching (lines 234-261), the
risk-factor rules (lines 309-328), the request-level try/except
structure (lines 108-332), and the startup artifact load (lines 53-65).

Numeric values are modelled with the rationals: the Python code works
with int and float values, and every arithmetic expression in the
embedded fragment is exact affine arithmetic and division with nonzero
denominators, so rational arithmetic mirrors the intended values.
-/

namespace ChurnApp

/-- Geography selectbox values (app.py line 80). -/
inductive Geography
  | France
  | Germany
  | Spain
deriving DecidableEq, Repr

/-- Gender radio values (app.py line 83). -/
inductive Gender
  | Male
  | Female
deriving DecidableEq, Repr

/-- The raw customer attributes collected by the sidebar widgets
(app.py lines 77-102).  Widget ranges: credit_score in [300,850],
age in [18,100], tenure in [0,10], balance in [0,300000],
num_products in a set of four values, estimated_salary in [0,200000]. -/
structure CustomerRecord where
  credit_score : ℕ
  geography : Geography
  gender : Gender
  age : ℕ
  tenure : ℕ
  balance : ℚ
  num_products : ℕ
  has_credit_card : Bool
  is_active : Bool
  estimated_salary : ℚ
deriving DecidableEq, Repr

/-- CreditCategory_Good flag (app.py lines 133-141): 1 exactly when
600 <= score < 700, else 0. -/
def creditCategoryGood (score : ℕ) : ℚ :=
  if score < 600 then 0 else if score < 700 then 1 else 0

/-- CreditCategory_Excellent flag (app.py lines 133-141): 1 exactly when
score >= 700, else 0. -/
def creditCategoryExcellent (score : ℕ) : ℚ :=
  if score < 600 then 0 else if score < 700 then 0 else 1

/-- TenureAgeRatio (app.py line 125): tenure / (age + 1). -/
def tenureAgeRatio (r : CustomerRecord) : ℚ :=
  (r.tenure : ℚ) / ((r.age : ℚ) + 1)

/-- BalancePerProduct (app.py line 126): balance / (num_products + 0.01). -/
def balancePerProduct (r : CustomerRecord) : ℚ :=
  r.balance / ((r.num_products : ℚ) + 1 / 100)

/-- BalanceSalaryRatio (app.py line 130): balance / (estimated_salary + 1). -/
def balanceSalaryRatio (r : CustomerRecord) : ℚ :=
  r.balance / (r.estimated_salary + 1)

/-- The input_data dictionary (app.py lines 110-141): raw encoded fields
followed by the engineered features and the credit-category flags, as an
association list in Python dict insertion order. -/
def input_data (r : CustomerRecord) : List (String × ℚ) :=
  [("CreditScore", (r.credit_score : ℚ)),
   ("Age", (r.age : ℚ)),
   ("Tenure", (r.tenure : ℚ)),
   ("Balance", r.balance),
   ("NumOfProducts", (r.num_products : ℚ)),
   ("HasCrCard", if r.has_credit_card then 1 else 0),
   ("IsActiveMember", if r.is_active then 1 else 0),
   ("EstimatedSalary", r.estimated_salary),
   ("Gender", if r.gender = Gender.Male then 1 else 0),
   ("Geography_Germany", if r.geography = Geography.Germany then 1 else 0),
   ("Geography_Spain", if r.geography = Geography.Spain then 1 else 0),
   ("TenureAgeRatio", tenureAgeRatio r),
   ("BalancePerProduct", balancePerProduct r),
   ("HighValueCustomer", if r.balance > 100000 then 1 else 0),
   ("ActiveSenior", if r.is_active ∧ r.age ≥ 50 then 1 else 0),
   ("ProductDiversity", if r.num_products = 2 ∨ r.num_products = 3 then 1 else 0),
   ("BalanceSalaryRatio", balanceSalaryRatio r),
   ("CreditCategory_Good", creditCategoryGood r.credit_score),
   ("CreditCategory_Excellent", creditCategoryExcellent r.credit_score)]

/-- The zero-fill loop (app.py lines 147-149): for each trained feature
name, if it is not already a column it is appended with value 0. -/
def zeroFill (cols : List (String × ℚ)) (names : List String) : List (String × ℚ) :=
  names.foldl (fun acc n => if (acc.lookup n).isNone then acc ++ [(n, 0)] else acc) cols

/-- Column selection input_df[feature_names] (app.py line 152): the
columns named by the trained list, in its order; a missing name is a
KeyError, modelled as the error case. -/
def selectColumns (cols : List (String × ℚ)) (names : List String) :
    Except String (List (String × ℚ)) :=
  match names with
  | [] => Except.ok []
  | n :: rest =>
    match cols.lookup n with
    | none => Except.error n
    | some v =>
      match selectColumns cols rest with
      | Except.error e => Except.error e
      | Except.ok t => Except.ok ((n, v) :: t)

/-- The full feature-preparation step handed to inference
(app.py lines 144-152): zero-fill the missing trained names, then
reorder to the trained column order. -/
def alignFeatures (cols : List (String × ℚ)) (names : List String) :
    Except String (List (String × ℚ)) :=
  selectColumns (zeroFill cols names) names

/-- Risk tiers (app.py lines 165-176). -/
inductive RiskLevel
  | HIGH
  | MEDIUM
  | LOW
deriving DecidableEq, Repr

/-- Risk level determination (app.py lines 165-176): churn_prob >= 70 is
HIGH, else churn_prob >= 40 is MEDIUM, else LOW. -/
def riskLevelOf (churn_prob : ℚ) : RiskLevel :=
  if churn_prob ≥ 70 then RiskLevel.HIGH
  else if churn_prob ≥ 40 then RiskLevel.MEDIUM
  else RiskLevel.LOW

/-- The three canned recommendation text variants (app.py lines 234-271). -/
inductive Recommendation
  | urgentAction
  | proactiveEngagement
  | standardEngagement
deriving DecidableEq, Repr

/-- Recommendation branching (app.py lines 234-261): churn_prob >= 70
gives the urgent-action block, else churn_prob >= 40 the
proactive-engagement block, else the standard-engagement block. -/
def recommendationOf (churn_prob : ℚ) : Recommendation :=
  if churn_prob ≥ 70 then Recommendation.urgentAction
  else if churn_prob ≥ 40 then Recommendation.proactiveEngagement
  else Recommendation.standardEngagement

/-- The tier-to-text association the spec asserts: HIGH pairs with the
urgent-action text, MEDIUM with proactive engagement, LOW with standard
engagement.  Stated from the spec to compare with the two independent
threshold branchings of the source. -/
def recommendationForTier : RiskLevel → Recommendation
  | RiskLevel.HIGH => Recommendation.urgentAction
  | RiskLevel.MEDIUM => Recommendation.proactiveEngagement
  | RiskLevel.LOW => Recommendation.standardEngagement

/-- The risk_factors list construction (app.py lines 309-322): six
independent boolean rules appended in fixed order. -/
def risk_factors (r : CustomerRecord) : List String :=
  (if r.age > 45 then ["• Age above 45 (higher churn correlation)"] else []) ++
  (if r.geography = Geography.Germany then ["• Located in Germany (highest churn region)"] else []) ++
  (if r.num_products ≥ 3 then ["• Has 3+ products (potential over-complexity)"] else []) ++
  (if r.is_active = false then ["• Inactive member (low engagement)"] else []) ++
  (if r.balance = 0 then ["• Zero balance (account not utilized)"] else []) ++
  (if r.tenure < 2 then ["• New customer (< 2 years tenure)"] else [])

/-- The six rules with their texts in source order, each paired with
whether it fires, for stating that risk_factors is exactly the firing
subset in rule order. -/
def ruleTable (r : CustomerRecord) : List (Bool × String) :=
  [(decide (r.age > 45), "• Age above 45 (higher churn correlation)"),
   (decide (r.geography = Geography.Germany), "• Located in Germany (highest churn region)"),
   (decide (r.num_products ≥ 3), "• Has 3+ products (potential over-complexity)"),
   (!r.is_active, "• Inactive member (low engagement)"),
   (decide (r.balance = 0), "• Zero balance (account not utilized)"),
   (decide (r.tenure < 2), "• New customer (< 2 years tenure)")]

/-- Rendering of the risk-factor section (app.py lines 324-328): each
factor on its own line when any fired, otherwise the no-risk-factors
message. -/
def renderRiskFactors (r : CustomerRecord) : List String :=
  if risk_factors r = [] then ["No significant risk factors identified"]
  else risk_factors r

/-- C1: the risk tiering is a total three-way partition with inclusive
lower bounds: p >= 70 yields HIGH, 40 <= p < 70 yields MEDIUM, p < 40
yields LOW; in particular 70 yields HIGH and 40 yields MEDIUM, and as a
total function riskLevelOf assigns exactly one tier to every value. -/
theorem c1_risk_tiering_partition (p : ℚ) :
    (riskLevelOf p = RiskLevel.HIGH ↔ 70 ≤ p) ∧
    (riskLevelOf p = RiskLevel.MEDIUM ↔ 40 ≤ p ∧ p < 70) ∧
    (riskLevelOf p = RiskLevel.LOW ↔ p < 40) ∧
    riskLevelOf (70 : ℚ) = RiskLevel.HIGH ∧
    riskLevelOf (40 : ℚ) = RiskLevel.MEDIUM := by
  refine ⟨?_, ?_, ?_, by norm_num [riskLevelOf], by norm_num [riskLevelOf]⟩ <;>
    · simp only [riskLevelOf, ge_iff_le]
      split_ifs with h h2 <;> simp_all <;> linarith

/-- The Scenario A record of the spec: CreditScore=650, France, Male,
Age=35, Tenure=5, Balance=75000, NumOfProducts=1, HasCrCard=1,
IsActiveMember=1, EstimatedSalary=60000. -/
def scenarioA : CustomerRecord :=
  ⟨650, Geography.France, Gender.Male, 35, 5, 75000, 1, true, true, 60000⟩

/-- The Scenario B record of the spec: Age=55, Germany, NumOfProducts=4,
IsActiveMember=false, Tenure=10, with nonzero Balance; remaining fields
taken at the widget defaults. -/
def scenarioB : CustomerRecord :=
  ⟨650, Geography.Germany, Gender.Male, 55, 10, 75000, 4, true, false, 60000⟩

/-- A record on which none of the six risk-factor rules fires: age 30,
France, 2 products, active, nonzero balance, tenure 8. -/
def noRiskRecord : CustomerRecord :=
  ⟨650, Geography.France, Gender.Male, 30, 8, 75000, 2, true, true, 60000⟩

/-- C2: the input_data dictionary assigns each engineered feature its
defining formula, and on the Scenario A record the values are 5/36,
75000/1.01 = 7500000/101, 0, 0, 0, 75000/60001, with
CreditCategory_Good 1 and CreditCategory_Excellent 0. -/
theorem c2_engineered_features :
    (∀ r : CustomerRecord,
      (input_data r).lookup "TenureAgeRatio" = some ((r.tenure : ℚ) / ((r.age : ℚ) + 1)) ∧
      (input_data r).lookup "BalancePerProduct" = some (r.balance / ((r.num_products : ℚ) + 1 / 100)) ∧
      (input_data r).lookup "HighValueCustomer" = some (if r.balance > 100000 then 1 else 0) ∧
      (input_data r).lookup "ActiveSenior" = some (if r.is_active ∧ r.age ≥ 50 then 1 else 0) ∧
      (input_data r).lookup "ProductDiversity" = some (if r.num_products = 2 ∨ r.num_products = 3 then 1 else 0) ∧
      (input_data r).lookup "BalanceSalaryRatio" = some (r.balance / (r.estimated_salary + 1))) ∧
    (input_data scenarioA).lookup "TenureAgeRatio" = some (5 / 36 : ℚ) ∧
    (input_data scenarioA).lookup "BalancePerProduct" = some (7500000 / 101 : ℚ) ∧
    (input_data scenarioA).lookup "HighValueCustomer" = some (0 : ℚ) ∧
    (input_data scenarioA).lookup "ActiveSenior" = some (0 : ℚ) ∧
    (input_data scenarioA).lookup "ProductDiversity" = some (0 : ℚ) ∧
    (input_data scenarioA).lookup "BalanceSalaryRatio" = some (75000 / 60001 : ℚ) ∧
    (input_data scenarioA).lookup "CreditCategory_Good" = some (1 : ℚ) ∧
    (input_data scenarioA).lookup "CreditCategory_Excellent" = some (0 : ℚ) := by
  refine ⟨fun r => ⟨rfl, rfl, rfl, rfl, rfl, rfl⟩, ?_, ?_, ?_, ?_, ?_, ?_, ?_, ?_⟩ <;>
    norm_num [input_data, scenarioA, List.lookup, creditCategoryGood,
      creditCategoryExcellent, tenureAgeRatio, balancePerProduct, balanceSalaryRatio] <;> rfl

/-- C5: for every credit score the two credit-category flags satisfy
Good = 1 exactly on 600 <= score < 700, Excellent = 1 exactly on
score >= 700, both are 0 exactly below 600, each flag is 0 or 1, and
Good and Excellent are never 1 together (their product is 0). -/
theorem c5_credit_category_flags (s : ℕ) :
    (creditCategoryGood s = 1 ↔ 600 ≤ s ∧ s < 700) ∧
    (creditCategoryExcellent s = 1 ↔ 700 ≤ s) ∧
    creditCategoryGood s * creditCategoryExcellent s = 0 ∧
    (creditCategoryGood s = 0 ∧ creditCategoryExcellent s = 0 ↔ s < 600) ∧
    (creditCategoryGood s = 0 ∨ creditCategoryGood s = 1) ∧
    (creditCategoryExcellent s = 0 ∨ creditCategoryExcellent s = 1) := by
  unfold creditCategoryGood creditCategoryExcellent
  split_ifs with h h2 <;> norm_num <;> omega

/-- C6: the emitted risk-factor list is exactly the firing subset of the
six rules in fixed rule order, the rendering shows the no-risk-factors
message exactly when no rule fires, the Scenario B record yields exactly
the four factors age>45, Germany, products>=3, inactive, and a record on
which no rule fires renders the no-risk-factors message. -/
theorem c6_risk_factor_rules :
    (∀ r : CustomerRecord,
      risk_factors r = ((ruleTable r).filter Prod.fst).map Prod.snd ∧
      renderRiskFactors r =
        (if ((ruleTable r).filter Prod.fst) = []
         then ["No significant risk factors identified"]
         else ((ruleTable r).filter Prod.fst).map Prod.snd)) ∧
    risk_factors scenarioB =
      ["• Age above 45 (higher churn correlation)",
       "• Located in Germany (highest churn region)",
       "• Has 3+ products (potential over-complexity)",
       "• Inactive member (low engagement)"] ∧
    renderRiskFactors noRiskRecord = ["No significant risk factors identified"] := by
  have hmain : ∀ r : CustomerRecord,
      risk_factors r = ((ruleTable r).filter Prod.fst).map Prod.snd := by
    intro r
    simp only [risk_factors, ruleTable, List.filter_cons, List.filter_nil,
      List.map_cons, List.map_nil, decide_eq_true_eq, Bool.not_eq_true]
    split_ifs <;> simp_all
  refine ⟨fun r => ⟨hmain r, ?_⟩, ?_, ?_⟩
  · rw [renderRiskFactors, hmain r]
    rcases h : (ruleTable r).filter Prod.fst with _ | ⟨a, t⟩ <;> simp
  · rw [hmain scenarioB]
    norm_num [ruleTable, scenarioB, List.filter]
  · have hz : risk_factors noRiskRecord = [] := by
      rw [hmain noRiskRecord]
      norm_num [ruleTable, noRiskRecord, List.filter]
      rfl
    rw [renderRiskFactors, hz]
    simp

/-- C10: the recommendation text variant selected by the branching on
churn_prob always agrees with the risk tier: for every probability value
the selected variant is the one associated to the tier (urgent action
for HIGH, proactive engagement for MEDIUM, standard engagement for
LOW). -/
theorem c10_recommendation_agrees_with_tier (p : ℚ) :
    recommendationOf p = recommendationForTier (riskLevelOf p) := by
  unfold recommendationOf riskLevelOf
  split_ifs <;> rfl

/-- Lookup in an appended association list: the first list wins, the
second is consulted only when the first has no entry for the key. -/
theorem lookup_append (l1 l2 : List (String × ℚ)) (n : String) :
    (l1 ++ l2).lookup n = ((l1.lookup n).orElse (fun _ => l2.lookup n)) := by
  induction l1 with
  | nil => rfl
  | cons p t ih =>
    rcases p with ⟨k, v⟩
    cases hnk : (n == k) <;> simp [List.lookup, hnk, ih]

/-- Lookup after the zero-fill loop: a trained name missing from the
original columns reads 0, a present name keeps its first value, and a
name outside the trained list is untouched. -/
theorem zeroFill_lookup (names : List String) (cols : List (String × ℚ)) (n : String) :
    (zeroFill cols names).lookup n =
      if n ∈ names then some ((cols.lookup n).getD 0) else cols.lookup n := by
  induction names generalizing cols with
  | nil => simp [zeroFill]
  | cons x xs ih =>
    have hstep : zeroFill cols (x :: xs) =
        zeroFill (if (cols.lookup x).isNone then cols ++ [(x, 0)] else cols) xs := rfl
    rw [hstep, ih]
    by_cases hnx : n = x
    · subst hnx
      rcases ho : cols.lookup n with _ | v
      · have hcols : (if (none : Option ℚ).isNone = true then cols ++ [(n, 0)] else cols)
            = cols ++ [(n, 0)] := by simp
        rw [hcols]
        have hla : List.lookup n (cols ++ [(n, 0)]) = some 0 := by
          simp [lookup_append, ho, List.lookup]
        rw [hla]
        simp
      · have hcols : (if (some v).isNone = true then cols ++ [(n, 0)] else cols)
            = cols := by simp
        rw [hcols, ho]
        simp
    · have hbk : (n == x) = false := by simp [hnx]
      have hcols : List.lookup n
            (if (List.lookup x cols).isNone = true then cols ++ [(x, 0)] else cols)
          = List.lookup n cols := by
        split_ifs <;> simp [lookup_append, List.lookup, hbk]
      rw [hcols]
      simp [List.mem_cons, hnx]

/-- Column selection succeeds and returns the looked-up values when
every requested name has an entry. -/
theorem selectColumns_ok (cols : List (String × ℚ)) (f : String → ℚ) :
    ∀ names : List String, (∀ n ∈ names, cols.lookup n = some (f n)) →
      selectColumns cols names = Except.ok (names.map fun n => (n, f n)) := by
  intro names
  induction names with
  | nil => intro _; rfl
  | cons x xs ih =>
    intro h
    have hx : cols.lookup x = some (f x) := h x (List.mem_cons_self x xs)
    have hxs := ih (fun n hn => h n (List.mem_cons_of_mem x hn))
    simp [selectColumns, hx, hxs]

/-- The zero-fill plus reorder step always succeeds, producing exactly
the trained names in trained order, each valued by the transform when it
produced that name and by 0 otherwise. -/
theorem alignFeatures_eq (cols : List (String × ℚ)) (names : List String) :
    alignFeatures cols names =
      Except.ok (names.map fun n => (n, (cols.lookup n).getD 0)) := by
  unfold alignFeatures
  apply selectColumns_ok
  intro n hn
  rw [zeroFill_lookup]
  simp [hn]

/-- Mapping first projections over name-value pairs built from a name
list recovers the name list. -/
theorem map_fst_pairs (names : List String) (f : String → ℚ) :
    (names.map fun n => (n, f n)).map Prod.fst = names := by
  induction names with
  | nil => rfl
  | cons x xs ih => simp [ih]

/-- Filtering the columns to the trained names does not change any
lookup of a trained name. -/
theorem lookup_filter_trained (cols : List (String × ℚ)) (names : List String)
    (n : String) (hn : n ∈ names) :
    (cols.filter fun p => decide (p.1 ∈ names)).lookup n = cols.lookup n := by
  induction cols with
  | nil => rfl
  | cons p t ih =>
    rcases p with ⟨k, v⟩
    by_cases hk : n = k
    · subst hk
      have hkn : decide (n ∈ names) = true := by simpa using hn
      simp [List.filter_cons, hkn, List.lookup]
    · have hbk : (n == k) = false := by simp [hk]
      cases hc : decide (k ∈ names) <;>
        simp [List.filter_cons, hc, List.lookup, hbk, ih]

/-- C4: for every feature dictionary and trained feature-name list, the
zero-fill plus reorder step succeeds without raising and hands inference
exactly the trained names in trained column order, valuing each name the
transform produced by its value and each name it did not produce by 0. -/
theorem c4_missing_default_and_reorder (cols : List (String × ℚ)) (names : List String) :
    alignFeatures cols names =
      Except.ok (names.map fun n => (n, (cols.lookup n).getD 0)) :=
  alignFeatures_eq cols names

/-- C9: the vector handed to inference carries exactly the trained names
and no others, and features produced by the transform whose names are
outside the trained list are dropped silently: removing them from the
input changes nothing, and the step still succeeds without error. -/
theorem c9_extra_features_silently_dropped (cols : List (String × ℚ)) (names : List String) :
    Except.map (List.map Prod.fst) (alignFeatures cols names) = Except.ok names ∧
    alignFeatures (cols.filter fun p => decide (p.1 ∈ names)) names =
      alignFeatures cols names := by
  constructor
  · rw [alignFeatures_eq]
    show Except.ok ((names.map fun n => (n, (cols.lookup n).getD 0)).map Prod.fst)
        = Except.ok names
    rw [map_fst_pairs]
  · rw [alignFeatures_eq, alignFeatures_eq]
    congr 1
    apply List.map_congr_left
    intro n hn
    rw [lookup_filter_trained cols names n hn]

/-- The opaque pre-trained artifact (app.py lines 56-57): a classifier
exposing predict and predict_proba, either of which may raise; a raised
exception is modelled by the error case with its message. -/
structure ChurnModel where
  predict : List (String × ℚ) → Except String ℕ
  predict_proba : List (String × ℚ) → Except String (ℚ × ℚ)

/-- The per-request prediction output (app.py lines 156-176): churn and
stay probabilities as percentages and the derived risk tier. -/
structure PredictionResult where
  churn_prob : ℚ
  stay_prob : ℚ
  risk : RiskLevel
deriving DecidableEq, Repr

/-- Outcome of one prediction request (app.py lines 108-332): a result
rendered, an error message shown by the except handler (lines 330-332),
or an exception that escapes the per-request try/except. -/
inductive RequestOutcome
  | emitted (res : PredictionResult)
  | errorMessage (msg : String)
  | uncaughtException (msg : String)
deriving DecidableEq, Repr

/-- True exactly on an outcome surfaced by the except handler. -/
def isSurfacedError : RequestOutcome → Bool
  | RequestOutcome.errorMessage _ => true
  | _ => false

/-- True exactly on an outcome that emitted a PredictionResult. -/
def isEmitted : RequestOutcome → Bool
  | RequestOutcome.emitted _ => true
  | _ => false

/-- Control structure of one button press (app.py lines 108-332).  The
feature preparation (lines 110-152) runs before the try block, so a
failure there is not caught by the handler; the try block (line 155)
covers model.predict, model.predict_proba and the result rendering, and
its except clause (lines 330-332) shows "Prediction error: " with the
exception text and emits no result. -/
def runRequest (transformed : Except String (List (String × ℚ))) (model : ChurnModel) :
    RequestOutcome :=
  match transformed with
  | Except.error e => RequestOutcome.uncaughtException e
  | Except.ok input_df =>
    match model.predict input_df with
    | Except.error e => RequestOutcome.errorMessage ("Prediction error: " ++ e)
    | Except.ok _ =>
      match model.predict_proba input_df with
      | Except.error e => RequestOutcome.errorMessage ("Prediction error: " ++ e)
      | Except.ok probability =>
        RequestOutcome.emitted
          ⟨probability.2 * 100, probability.1 * 100, riskLevelOf (probability.2 * 100)⟩

/-- One full prediction request for a record: build input_data, zero-fill
and reorder to the trained names, then run the guarded inference. -/
def runPredict (r : CustomerRecord) (feature_names : List String) (model : ChurnModel) :
    RequestOutcome :=
  runRequest (alignFeatures (input_data r) feature_names) model

/-- Sequential request serving: each button press is handled
independently, with no state carried across requests. -/
def serveRequests (model : ChurnModel) (feature_names : List String)
    (rs : List CustomerRecord) : List RequestOutcome :=
  rs.map fun r => runPredict r feature_names model

/-- Classification raised with message e: predict raised, or predict
succeeded and predict_proba raised. -/
def classificationFails (model : ChurnModel) (input_df : List (String × ℚ))
    (e : String) : Prop :=
  model.predict input_df = Except.error e ∨
  (model.predict_proba input_df = Except.error e ∧
    ∃ k, model.predict input_df = Except.ok k)

/-- A classifier whose calls always succeed. -/
def okModel : ChurnModel :=
  ⟨fun _ => Except.ok 1, fun _ => Except.ok (1 / 2, 1 / 2)⟩

/-- A classifier whose calls always raise. -/
def failingModel : ChurnModel :=
  ⟨fun _ => Except.error "boom", fun _ => Except.error "boom"⟩

/-- C3 counterexample: a failure in the feature-preparation step, which
runs before the try block, escapes the per-request handler instead of
being surfaced as a caught user-visible error message, so the claim that
any exception during the feature transform is caught fails on the code
structure. -/
theorem c3_transform_error_escapes_handler :
    runRequest (Except.error "transform failure") okModel =
      RequestOutcome.uncaughtException "transform failure" ∧
    isSurfacedError (runRequest (Except.error "transform failure") okModel) = false ∧
    isEmitted (runRequest (Except.error "transform failure") okModel) = false :=
  ⟨rfl, rfl, rfl⟩

/-- C3 (amended): any exception raised during classification (the
predict and predict_proba calls inside the try block) is caught and
surfaced as the user-visible "Prediction error" message, no
PredictionResult is emitted for that request, and subsequent requests
are still served; only the feature transform, which runs before the try
block, is outside this guarantee. -/
theorem c3_classification_errors_caught (input_df : List (String × ℚ)) (model : ChurnModel)
    (e : String) (h : classificationFails model input_df e)
    (feature_names : List String) (r : CustomerRecord) (rest : List CustomerRecord) :
    runRequest (Except.ok input_df) model =
      RequestOutcome.errorMessage ("Prediction error: " ++ e) ∧
    isEmitted (runRequest (Except.ok input_df) model) = false ∧
    serveRequests model feature_names (r :: rest) =
      runPredict r feature_names model :: serveRequests model feature_names rest := by
  rcases h with h | ⟨hp, k, hk⟩
  · simp [runRequest, h, isEmitted, serveRequests]
  · simp [runRequest, hk, hp, isEmitted, serveRequests]

/-- Witness for the amended C3 theorem: with a classifier that raises,
the request surfaces the error message, emits nothing, and serving
continues for the next request. -/
theorem c3_classification_errors_caught_witness :
    runRequest (Except.ok []) failingModel =
      RequestOutcome.errorMessage ("Prediction error: " ++ "boom") ∧
    isEmitted (runRequest (Except.ok []) failingModel) = false ∧
    serveRequests failingModel [] (scenarioA :: []) =
      runPredict scenarioA [] failingModel :: serveRequests failingModel [] [] :=
  c3_classification_errors_caught [] failingModel "boom" (Or.inl rfl) [] scenarioA []

/-- How an artifact file read can fail: the file is absent
(FileNotFoundError, the only exception load_model catches) or present
but not loadable (any other exception, uncaught). -/
inductive LoadError
  | fileNotFound (path : String)
  | loadFailure (msg : String)
deriving DecidableEq, Repr

/-- Result of the startup phase (app.py lines 53-65): both artifacts
loaded, or the script stopped with the model-files-not-found error, or
an uncaught startup exception ended the run. -/
inductive StartupOutcome
  | loaded (model : ChurnModel) (feature_names : List String)
  | stoppedWithError (msg : String)
  | uncaughtStartupException (msg : String)

/-- The operator-visible message of the FileNotFoundError branch
(app.py line 62). -/
def notFoundMessage : String :=
  "Model files not found! Make sure the model and feature files are in the same folder as this app."

/-- load_model (app.py lines 53-65): read the classifier file, then the
feature-name file; a FileNotFoundError from either is caught once,
reported with st.error and the run stopped with st.stop; any other load
exception propagates and also ends the run before serving. -/
def load_model (readModelFile : Except LoadError ChurnModel)
    (readFeaturesFile : Except LoadError (List String)) : StartupOutcome :=
  match readModelFile with
  | Except.error (LoadError.fileNotFound _) => StartupOutcome.stoppedWithError notFoundMessage
  | Except.error (LoadError.loadFailure m) => StartupOutcome.uncaughtStartupException m
  | Except.ok model =>
    match readFeaturesFile with
    | Except.error (LoadError.fileNotFound _) => StartupOutcome.stoppedWithError notFoundMessage
    | Except.error (LoadError.loadFailure m) => StartupOutcome.uncaughtStartupException m
    | Except.ok features => StartupOutcome.loaded model features

/-- True exactly when startup completed with both artifacts. -/
def isLoaded : StartupOutcome → Bool
  | StartupOutcome.loaded _ _ => true
  | _ => false

/-- True exactly when startup ended reporting a failure. -/
def reportsStartupFailure : StartupOutcome → Bool
  | StartupOutcome.stoppedWithError _ => true
  | StartupOutcome.uncaughtStartupException _ => true
  | StartupOutcome.loaded _ _ => false

/-- A whole run of the app (app.py line 65 onward): load_model runs
exactly once before any input is accepted; prediction requests are
served only after a successful load, and a failed load ends the run
with no request processed. -/
def runApp (readModelFile : Except LoadError ChurnModel)
    (readFeaturesFile : Except LoadError (List String))
    (requests : List CustomerRecord) : StartupOutcome × List RequestOutcome :=
  match load_model readModelFile readFeaturesFile with
  | StartupOutcome.loaded model features =>
    (StartupOutcome.loaded model features, serveRequests model features requests)
  | StartupOutcome.stoppedWithError m => (StartupOutcome.stoppedWithError m, [])
  | StartupOutcome.uncaughtStartupException m =>
    (StartupOutcome.uncaughtStartupException m, [])

/-- C8: if either artifact file cannot be located or loaded at startup,
the run halts before accepting any input: startup does not complete, the
failure is reported, and no prediction request is ever processed in that
run. -/
theorem c8_startup_failure_halts (readModelFile : Except LoadError ChurnModel)
    (readFeaturesFile : Except LoadError (List String))
    (requests : List CustomerRecord)
    (h : (∃ e, readModelFile = Except.error e) ∨ (∃ e, readFeaturesFile = Except.error e)) :
    (runApp readModelFile readFeaturesFile requests).2 = [] ∧
    isLoaded (runApp readModelFile readFeaturesFile requests).1 = false ∧
    reportsStartupFailure (runApp readModelFile readFeaturesFile requests).1 = true := by
  obtain ⟨e, rfl⟩ | ⟨e, rfl⟩ := h
  · cases e <;> simp [runApp, load_model, isLoaded, reportsStartupFailure]
  · cases readModelFile with
    | error em => cases em <;> cases e <;>
        simp [runApp, load_model, isLoaded, reportsStartupFailure]
    | ok model => cases e <;>
        simp [runApp, load_model, isLoaded, reportsStartupFailure]

/-- The model artifact file absent at startup. -/
def missingModelFile : Except LoadError ChurnModel :=
  Except.error (LoadError.fileNotFound "customer_churn_rf_model.pkl")

/-- Witness for C8: with the classifier artifact file absent, the run
serves no prediction, startup does not complete, and the failure is
reported. -/
theorem c8_startup_failure_halts_witness :
    (runApp missingModelFile (Except.ok []) []).2 = [] ∧
    isLoaded (runApp missingModelFile (Except.ok []) []).1 = false ∧
    reportsStartupFailure (runApp missingModelFile (Except.ok []) []).1 = true :=
  c8_startup_failure_halts missingModelFile (Except.ok []) []
    (Or.inl ⟨LoadError.fileNotFound "customer_churn_rf_model.pkl", rfl⟩)

/-- C7: for every record in the widget-enforced ranges (age at least 18,
at least one product, nonnegative salary) the three ratio denominators
are strictly positive and bounded below by 19, 101/100 and 1, so each
ratio is an exact finite quotient: multiplying it back by its
denominator recovers the numerator, and no division by zero occurs. -/
theorem c7_ratio_denominators_positive (r : CustomerRecord)
    (h1 : 18 ≤ r.age) (h2 : 1 ≤ r.num_products) (h3 : 0 ≤ r.estimated_salary) :
    (19 : ℚ) ≤ (r.age : ℚ) + 1 ∧
    (101 / 100 : ℚ) ≤ (r.num_products : ℚ) + 1 / 100 ∧
    (1 : ℚ) ≤ r.estimated_salary + 1 ∧
    tenureAgeRatio r * ((r.age : ℚ) + 1) = (r.tenure : ℚ) ∧
    balancePerProduct r * ((r.num_products : ℚ) + 1 / 100) = r.balance ∧
    balanceSalaryRatio r * (r.estimated_salary + 1) = r.balance := by
  have ha : (18 : ℚ) ≤ (r.age : ℚ) := by exact_mod_cast h1
  have hn : (1 : ℚ) ≤ (r.num_products : ℚ) := by exact_mod_cast h2
  have hane : ((r.age : ℚ) + 1) ≠ 0 := by linarith
  have hnne : ((r.num_products : ℚ) + 1 / 100) ≠ 0 := by linarith
  have hsne : (r.estimated_salary + 1) ≠ 0 := by linarith
  refine ⟨by linarith, by linarith, by linarith, ?_, ?_, ?_⟩
  · rw [tenureAgeRatio, div_mul_cancel₀ _ hane]
  · rw [balancePerProduct, div_mul_cancel₀ _ hnne]
  · rw [balanceSalaryRatio, div_mul_cancel₀ _ hsne]

/-- Witness for C7 at the Scenario A record: age 35, one product,
salary 60000 satisfy the widget ranges and the denominators behave as
stated. -/
theorem c7_ratio_denominators_positive_witness :
    (19 : ℚ) ≤ (scenarioA.age : ℚ) + 1 ∧
    (101 / 100 : ℚ) ≤ (scenarioA.num_products : ℚ) + 1 / 100 ∧
    (1 : ℚ) ≤ scenarioA.estimated_salary + 1 ∧
    tenureAgeRatio scenarioA * ((scenarioA.age : ℚ) + 1) = (scenarioA.tenure : ℚ) ∧
    balancePerProduct scenarioA * ((scenarioA.num_products : ℚ) + 1 / 100) = scenarioA.balance ∧
    balanceSalaryRatio scenarioA * (scenarioA.estimated_salary + 1) = scenarioA.balance :=
  c7_ratio_denominators_positive scenarioA (by norm_num [scenarioA])
    (by norm_num [scenarioA]) (by norm_num [scenarioA])

end ChurnApp
